import Mathlib

/-!
Verification of the ScoutLoot maintenance-patch repository.

The repository consists of Python scripts that rewrite a deployed web
application's files by string and regex substitution.  The embedded
JavaScript/TypeScript fragments that the scripts install (the bulk
condition route, the forgot-password handler, the currency resolver,
the settings route) are modelled here as Lean functions over
`List Char` strings, and the scripts' own file transformations are
modelled as pure functions on file contents together with traces of
file-system operations.
-/

set_option maxRecDepth 10000

namespace ScoutLoot

/-! ## String utilities shared by the embeddings -/

/-- Whitespace characters recognised by the scripts' patterns: this is the
Python regex class for whitespace, and is used here as the model of leading
whitespace skipped by JavaScript `parseInt` as well. -/
def isSpaceChar (c : Char) : Bool :=
  c = ' ' || c = '\t' || c = '\n' || c = '\r' || c = '\x0b' || c = '\x0c'

/-- Boolean substring test: models Python's `needle in s` and JavaScript's
`String.prototype.includes`. -/
def containsSub (needle : List Char) : List Char → Bool
  | [] => needle.isPrefixOf []
  | c :: rest => needle.isPrefixOf (c :: rest) || containsSub needle rest

/-- Fuelled worker for `pyReplace`.  Scans left to right; at each position
where `old` (assumed non-empty by every call site) occurs, emits `new` and
continues after the occurrence without re-scanning the replacement text,
exactly as Python `str.replace` does. -/
def replaceAllAux (old new : List Char) : Nat → List Char → List Char
  | 0, s => s
  | _ + 1, [] => []
  | fuel + 1, c :: rest =>
    if old ≠ [] ∧ old.isPrefixOf (c :: rest) then
      new ++ replaceAllAux old new fuel ((c :: rest).drop old.length)
    else
      c :: replaceAllAux old new fuel rest

/-- Python `s.replace(old, new)` for a non-empty pattern `old`: replaces every
non-overlapping occurrence, left to right. -/
def pyReplace (s old new : List Char) : List Char :=
  replaceAllAux old new s.length s

/-! ## The v29 bulk-condition route (src/v29_patch.py, patch_watches_ts)

The TypeScript endpoint installed by `v29_patch.py` is

  router.patch bulk-condition/:userId:
    parse the user id with parseInt(..., 10); respond 400 on NaN;
    respond 400 unless the body condition is one of new/used/any;
    otherwise run
      UPDATE watches SET condition = $1, updated_at = NOW()
      WHERE user_id = $2 AND status = 'active'
    and respond 200 with the row count.

The watches table is modelled as a list of rows, and the UPDATE as a map
over that list; the SQL row count is the number of rows matching the
WHERE clause. -/

/-- A row of the `watches` table, restricted to the columns the bulk
condition endpoint reads or writes. -/
structure Watch where
  id : Nat
  user_id : Nat
  status : List Char
  condition : List Char
  updated_at : Nat
deriving DecidableEq

/-- The WHERE clause of the UPDATE: `user_id = $2 AND status = 'active'`. -/
def ownedActive (uid : Int) (w : Watch) : Bool :=
  decide ((w.user_id : Int) = uid) && decide (w.status = "active".data)

/-- The UPDATE statement of the bulk-condition endpoint: sets `condition`
and `updated_at` on every active watch owned by `uid`, leaves every other
row unchanged, and reports the number of rows matched by the WHERE clause
(Postgres `rowCount`). -/
def bulkSetCondition (uid : Int) (c : List Char) (now : Nat) (db : List Watch) :
    List Watch × Nat :=
  (db.map fun w =>
     if ownedActive uid w then { w with condition := c, updated_at := now } else w,
   db.countP (ownedActive uid))

/-- Decimal digits to a natural number, most significant first. -/
def digitsToNat (ds : List Char) : Nat :=
  ds.foldl (fun acc c => acc * 10 + (c.toNat - 48)) 0

/-- The longest leading run of decimal digits, or `none` when there is no
leading digit. -/
def parseDigits (s : List Char) : Option Nat :=
  let ds := s.takeWhile Char.isDigit
  if ds = [] then none else some (digitsToNat ds)

/-- JavaScript `parseInt(s, 10)`: skip leading whitespace, read an optional
sign and then the longest run of decimal digits; `none` models NaN. -/
def parseIntJS (s : List Char) : Option Int :=
  match s.dropWhile isSpaceChar with
  | '-' :: rest => (parseDigits rest).map (fun n => -(n : Int))
  | '+' :: rest => (parseDigits rest).map (fun n => (n : Int))
  | rest => (parseDigits rest).map (fun n => (n : Int))

/-- The JSON response of the bulk-condition endpoint: HTTP status, the
`updated` row count (present only on success) and the echoed condition. -/
structure BulkConditionResponse where
  status : Nat
  updated : Option Nat
  condition : Option (List Char)
deriving DecidableEq

/-- The condition values accepted by the endpoint's validation:
`['new', 'used', 'any'].includes(condition)`. -/
def allowedConditions : List (List Char) :=
  ["new".data, "used".data, "any".data]

/-- The whole bulk-condition request handler.  `condition = none` models a
request body without the field (falsy in `!condition`); an empty string is
falsy as well and is also outside the allowed list. -/
def bulkConditionRoute (userIdStr : List Char) (condition : Option (List Char))
    (now : Nat) (db : List Watch) : BulkConditionResponse × List Watch :=
  match parseIntJS userIdStr with
  | none => (⟨400, none, none⟩, db)
  | some uid =>
    match condition with
    | none => (⟨400, none, none⟩, db)
    | some c =>
      if c ∈ allowedConditions then
        let r := bulkSetCondition uid c now db
        (⟨200, some r.2, some c⟩, r.1)
      else
        (⟨400, none, none⟩, db)

/-! ## The v30 frontend patch (src/v30_frontend_patch.py)

`patch_set_html` and `patch_minifig_html` rewrite the two detail pages by
plain `str.replace`; `verify_patches` checks the results; `main` backs both
files up, patches both, and on any verification error restores both from
the backups and exits 1. -/

/-- The `helper_code` block `patch_set_html` splices in place of
`let priceChart = null;` in set.html. -/
def v30SetHelperCode : List Char :=
  "let priceChart = null;\n    let currencySymbol = '€'; // V30: Dynamic currency symbol\n    \n    // V30: Get currency symbol based on user country\n    function getCurrencySymbol() \x7b\n      try \x7b\n        const userData = localStorage.getItem('scoutloot_user');\n        if (userData) \x7b\n          const user = JSON.parse(userData);\n          const country = (user.ship_to_country || '').toUpperCase();\n          if (country === 'US') return '$';\n          if (country === 'CA') return 'C$';\n          if (country === 'GB') return '£';\n        \x7d\n      \x7d catch (e) \x7b\x7d\n      return '€';\n    \x7d\n    currencySymbol = getCurrencySymbol();".data

/-- The `helper_code` block `patch_minifig_html` splices in place of
`let priceChart = null;` in minifig.html. -/
def v30MinifigHelperCode : List Char :=
  "let priceChart = null;\n    let currencySymbol = '€'; // V30: Updated from API response\n    \n    // V30: Get user country for API calls\n    function getUserCountry() \x7b\n      try \x7b\n        const userData = localStorage.getItem('scoutloot_user');\n        if (userData) \x7b\n          const user = JSON.parse(userData);\n          return user.ship_to_country || 'US';\n        \x7d\n      \x7d catch (e) \x7b\x7d\n      return 'US';\n    \x7d".data

/-- The pure file transformation of `patch_set_html`: its three
`content.replace` calls in order. -/
def patch_set_html (content : List Char) : List Char :=
  let c1 := pyReplace content "let priceChart = null;".data v30SetHelperCode
  let c2 := pyReplace c1
    "$\x7bcontext.dataset.label\x7d: €$\x7bcontext.raw.toFixed(2)\x7d".data
    "$\x7bcontext.dataset.label\x7d: $\x7bcurrencySymbol\x7d$\x7bcontext.raw.toFixed(2)\x7d".data
  pyReplace c2 "return '€' + value;".data "return currencySymbol + value;".data

/-- The pure file transformation of `patch_minifig_html`: its five
`content.replace` calls in order. -/
def patch_minifig_html (content : List Char) : List Char :=
  let c1 := pyReplace content "let priceChart = null;".data v30MinifigHelperCode
  let c2 := pyReplace c1
    "/api/minifigs/$\x7bfigNum\x7d/history?days=$\x7bdays\x7d`".data
    "/api/minifigs/$\x7bfigNum\x7d/history?days=$\x7bdays\x7d&country=$\x7bgetUserCountry()\x7d`".data
  let c3 := pyReplace c2
    "const history = await response.json();".data
    "const history = await response.json();\n        currencySymbol = history.symbol || '€'; // V30: Use API symbol".data
  let c4 := pyReplace c3
    "$\x7bcontext.dataset.label\x7d: €$\x7bcontext.raw.y.toFixed(2)\x7d".data
    "$\x7bcontext.dataset.label\x7d: $\x7bcurrencySymbol\x7d$\x7bcontext.raw.y.toFixed(2)\x7d".data
  pyReplace c4 "return '€' + value;".data "return currencySymbol + value;".data

/-- `verify_patches`: the list of error strings accumulated over the two
patched contents, in the order the code appends them. -/
def verify_patches (setContent minifigContent : List Char) : List (List Char) :=
  (if containsSub "currencySymbol".data setContent then []
   else ["set.html: currencySymbol not found".data]) ++
  (if containsSub "getCurrencySymbol".data setContent then []
   else ["set.html: getCurrencySymbol function not found".data]) ++
  (if containsSub "return '€' + value;".data setContent then
     ["set.html: hardcoded € still in Y-axis".data] else []) ++
  (if containsSub "getUserCountry".data minifigContent then []
   else ["minifig.html: getUserCountry function not found".data]) ++
  (if containsSub "country=$\x7bgetUserCountry()\x7d".data minifigContent then []
   else ["minifig.html: country parameter not in API call".data]) ++
  (if containsSub "history.symbol".data minifigContent then []
   else ["minifig.html: symbol from API not used".data]) ++
  (if containsSub "return '€' + value;".data minifigContent then
     ["minifig.html: hardcoded € still in Y-axis".data] else [])

/-- `main()` of v30_frontend_patch.py as a transformation of the two target
file contents together with the process exit code: back up both, patch
both, verify; on any error restore both from the backups and exit 1,
otherwise keep both patched files and exit 0. -/
def v30Main (setContent minifigContent : List Char) :
    (List Char × List Char) × Nat :=
  let s := patch_set_html setContent
  let m := patch_minifig_html minifigContent
  let errors := verify_patches s m
  if errors = [] then ((s, m), 0) else ((setContent, minifigContent), 1)

/-! ## The currency resolver installed in set.html (getCurrencySymbol) -/

/-- The state `getCurrencySymbol` finds in localStorage under
`scoutloot_user`: no entry, an entry JSON.parse throws on, or a parsed user
object whose `ship_to_country` may be absent. -/
inductive StoredUser where
  | absent
  | unparsable
  | user (ship_to_country : Option (List Char))
deriving DecidableEq

/-- JavaScript `String.prototype.toUpperCase`, on the ASCII country codes
the resolver compares against. -/
def jsToUpperCase (s : List Char) : List Char :=
  s.map Char.toUpper

/-- The `getCurrencySymbol` function installed into set.html by the v30
patch: uppercase `user.ship_to_country || ''` and map US, CA and GB to
their symbols; every other path — no stored user, a parse error, a missing
field, any other code — returns the Euro default. -/
def getCurrencySymbol : StoredUser → List Char
  | .absent => "€".data
  | .unparsable => "€".data
  | .user ship =>
    let country := jsToUpperCase (ship.getD [])
    if country = "US".data then "$".data
    else if country = "CA".data then "C$".data
    else if country = "GB".data then "£".data
    else "€".data

/-! ## v29 patch_app_js (src/v29_patch.py) -/

/-- The `new_js` block v29 appends to app.js: the prefillWatch listener and
handleBulkConditionChange. -/
def v29NewJs : List Char :=
  "\n\n// ===========================================\n// PREFILL WATCH FROM DETAIL PAGES (V29)\n// ===========================================\n\nwindow.addEventListener('prefillWatch', function(event) \x7b\n  var detail = event.detail;\n  var type = detail.type;\n  var id = detail.id;\n  var name = detail.name;\n  var imageUrl = detail.imageUrl;\n  \n  var input = document.getElementById('watch-set');\n  if (input) \x7b\n    input.value = id;\n  \x7d\n  \n  if (type === 'minifig') \x7b\n    selectedMinifigId = id;\n    selectedMinifigImageUrl = imageUrl || null;\n    selectedSetNumber = null;\n    selectedItemType = 'minifig';\n  \x7d else \x7b\n    selectedSetNumber = id;\n    selectedMinifigId = null;\n    selectedMinifigImageUrl = null;\n    selectedItemType = 'set';\n  \x7d\n  \n  // Update the modal subtitle if name is provided\n  var subtitle = document.querySelector('#modal-add-watch .modal-subtitle');\n  if (subtitle && name) \x7b\n    subtitle.textContent = name;\n  \x7d\n\x7d);\n\n// ===========================================\n// BULK CONDITION CHANGE (V29)\n// ===========================================\n\nasync function handleBulkConditionChange(condition) \x7b\n  if (!condition) return;\n  if (!state.user) \x7b\n    showToast('Please log in first', 'error');\n    return;\n  \x7d\n  \n  if (state.watches.length === 0) \x7b\n    showToast('No watches to update', 'info');\n    document.getElementById('bulk-condition-select').value = '';\n    return;\n  \x7d\n  \n  var conditionLabel = condition === 'any' ? 'Any Condition' : condition.charAt(0).toUpperCase() + condition.slice(1);\n  \n  if (!confirm('Change condition for ALL ' + state.watches.length + ' watches to \"' + conditionLabel + '\"?')) \x7b\n    document.getElementById('bulk-condition-select').value = '';\n    return;\n  \x7d\n  \n  try \x7b\n    var response = await apiCall('/watches/bulk-condition/' + state.user.id, \x7b\n      method: 'PATCH',\n      body: JSON.stringify(\x7b condition: condition \x7d),\n    \x7d);\n    \n    state.watches.forEach(function(watch) \x7b\n      watch.condition = condition;\n    \x7d);\n    \n    renderWatches();\n    showToast('All watches updated to ' + conditionLabel + '! 🎯', 'success');\n  \x7d catch (error) \x7b\n    showToast(error.message || 'Failed to update watches', 'error');\n  \x7d finally \x7b\n    document.getElementById('bulk-condition-select').value = '';\n  \x7d\n\x7d\n".data

/-- `patch_app_js` of v29_patch.py as a file-content transformation: when
the file already contains `handleBulkConditionChange` the function returns
without writing (the idempotency check); otherwise it appends the V29
functions at the end. -/
def patch_app_js (content : List Char) : List Char :=
  if containsSub "handleBulkConditionChange".data content then content
  else content ++ v29NewJs

/-! ## The forgot-password handler (src/fix_password_reset_js.py,
src/patch_password_reset.py)

`handleForgotPassword` is the client-side submission handler the two
password-reset patch scripts install (both carry the identical function).
It is modelled as the sequence of observable UI effects of one submission. -/

/-- An observable effect the handler performs, in program order. -/
inductive UIEffect where
  | setButtonText (id text : List Char)
  | setButtonDisabled (id : List Char) (disabled : Bool)
  | fetchPost (url : List Char) (bodyEmail : List Char)
  | closeModal (name : List Char)
  | showToast (message kind : List Char)
  | setFieldValue (id value : List Char)
  | consoleError (message : List Char)
deriving DecidableEq

/-- The part of the fetch outcome the handler inspects: `response.ok` and
the parsed body's `error` field. -/
structure FetchResponse where
  ok : Bool
  errorField : Option (List Char)
deriving DecidableEq

/-- `handleForgotPassword`, with `email` the field value, `originalText`
the submit button's label, and `resp` the fetch outcome (`none` when the
fetch or the JSON parse threw, taking the catch branch).  The trailing two
effects are the `finally` block. -/
def handleForgotPassword (email originalText : List Char)
    (resp : Option FetchResponse) : List UIEffect :=
  [.setButtonText "forgot-submit-btn".data "Sending...".data,
   .setButtonDisabled "forgot-submit-btn".data true,
   .fetchPost "/api/users/forgot-password".data email] ++
  (match resp with
   | some d =>
     if d.ok then
       [.closeModal "forgot-password".data,
        .showToast "If an account exists, a reset link has been sent to your email.".data
          "success".data,
        .setFieldValue "forgot-email".data []]
     else
       [.showToast (d.errorField.getD "Failed to send reset email".data) "error".data]
   | none =>
     [.consoleError "Forgot password error:".data,
      .showToast "Failed to send reset email".data "error".data]) ++
  [.setButtonText "forgot-submit-btn".data originalText,
   .setButtonDisabled "forgot-submit-btn".data false]

/-! ## Notification preference defaults (src/patch-notification-prefs.py)

The settings loader the patch installs populates the two notification
checkboxes with nullish-coalescing defaults. -/

/-- The two notification preference fields of the stored user object;
`none` models a field that is absent (undefined) on the record. -/
structure UserPrefFields where
  weekly_digest_enabled : Option Bool
  still_available_reminders : Option Bool
deriving DecidableEq

/-- The settings-modal population the patch adds:
`checked = state.user.weekly_digest_enabled ?? true` and
`checked = state.user.still_available_reminders ?? false`.  Returns the
(weekly digest, still available) checkbox states. -/
def settingsCheckboxes (u : UserPrefFields) : Bool × Bool :=
  (u.weekly_digest_enabled.getD true, u.still_available_reminders.getD false)

/-! ## The users PATCH /:id settings route (src/patch-notification-prefs.py,
new_route)

The route parses the id, collects the provided body fields, updates the
matching non-deleted user row with RETURNING *, and responds with the row
minus its password_hash. -/

/-- A row of the users table: the id and deletion state drive the WHERE
clause, and `cols` is the full column list the row yields under
RETURNING *. -/
structure UserRow where
  id : Nat
  deleted : Bool
  cols : List (List Char × List Char)
deriving DecidableEq

/-- The four optional body fields the route destructures; `none` models a
field that is `undefined` in `req.body`. -/
structure SettingsBody where
  ship_to_country : Option (List Char)
  timezone : Option (List Char)
  weekly_digest_enabled : Option (List Char)
  still_available_reminders : Option (List Char)
deriving DecidableEq

/-- Whether a column named `k` is present. -/
def hasField (k : List Char) (cols : List (List Char × List Char)) : Bool :=
  cols.any fun p => decide (p.1 = k)

/-- SQL `SET k = v` on a returned row: the column's value is replaced. -/
def setField (k v : List Char) (cols : List (List Char × List Char)) :
    List (List Char × List Char) :=
  cols.map fun p => if p.1 = k then (k, v) else p

/-- The accumulated SET clause of the route, applied to one row's columns:
each provided field in the order the code pushes them, then
`updated_at = NOW()`. -/
def applyUpdates (b : SettingsBody) (now : List Char)
    (cols : List (List Char × List Char)) : List (List Char × List Char) :=
  let c1 := match b.ship_to_country with
            | some v => setField "ship_to_country".data v cols
            | none => cols
  let c2 := match b.timezone with
            | some v => setField "timezone".data v c1
            | none => c1
  let c3 := match b.weekly_digest_enabled with
            | some v => setField "weekly_digest_enabled".data v c2
            | none => c2
  let c4 := match b.still_available_reminders with
            | some v => setField "still_available_reminders".data v c3
            | none => c3
  setField "updated_at".data now c4

/-- `updates.length === 0`: no field of the body was provided. -/
def noFieldsProvided (b : SettingsBody) : Bool :=
  b.ship_to_country.isNone && b.timezone.isNone &&
  b.weekly_digest_enabled.isNone && b.still_available_reminders.isNone

/-- The JavaScript rest-destructuring
`const \x7b password_hash: _, ...safeUser \x7d = result.rows[0]`:
every other column survives, `password_hash` is dropped. -/
def removeField (k : List Char) (cols : List (List Char × List Char)) :
    List (List Char × List Char) :=
  cols.filter fun p => !(decide (p.1 = k))

/-- The JSON response of the settings route. -/
structure UserPatchResponse where
  status : Nat
  user : Option (List (List Char × List Char))
  error : Option (List Char)
deriving DecidableEq

/-- The WHERE clause of the settings UPDATE:
`id = $n AND deleted_at IS NULL`. -/
def userRowMatches (uid : Int) (r : UserRow) : Bool :=
  decide ((r.id : Int) = uid) && !r.deleted

/-- The whole PATCH /:id request handler added by
patch-notification-prefs.py: id parse, empty-update check, the UPDATE with
WHERE id = $n AND deleted_at IS NULL RETURNING *, the 404 on no returned
row, and the password_hash strip on success. -/
def patchUserRoute (idStr : List Char) (b : SettingsBody) (now : List Char)
    (db : List UserRow) : UserPatchResponse × List UserRow :=
  match parseIntJS idStr with
  | none => (⟨400, none, some "Invalid user ID".data⟩, db)
  | some uid =>
    if noFieldsProvided b then
      (⟨400, none, some "No fields to update".data⟩, db)
    else
      let db' := db.map fun r =>
        if userRowMatches uid r then { r with cols := applyUpdates b now r.cols } else r
      match db.filter (userRowMatches uid) with
      | [] => (⟨404, none, some "User not found".data⟩, db')
      | r :: _ =>
        (⟨200, some (removeField "password_hash".data (applyUpdates b now r.cols)), none⟩, db')

/-! ## File-operation traces of the patch scripts

Used to settle the backup claims: a script run is modelled as the ordered
list of file-system operations it performs on its target file. -/

/-- A file-system operation a patch script performs. -/
inductive FileOp where
  | copy (src dst : List Char)
  | read (path : List Char)
  | write (path : List Char) (content : List Char)
deriving DecidableEq

/-- Trace check: every write is to a path that some earlier copy in the
trace has already backed up (the copy's source equals the written path). -/
def backupBeforeWrite (backed : List (List Char)) : List FileOp → Bool
  | [] => true
  | FileOp.copy src _ :: rest => backupBeforeWrite (src :: backed) rest
  | FileOp.read _ :: rest => backupBeforeWrite backed rest
  | FileOp.write p _ :: rest =>
    backed.any (fun q => decide (q = p)) && backupBeforeWrite backed rest

/-- Trace check: every copy destination contains the run's timestamp. -/
def copiesTimestamped (ts : List Char) (ops : List FileOp) : Bool :=
  ops.all fun op =>
    match op with
    | FileOp.copy _ dst => containsSub ts dst
    | _ => true

/-- Whether the trace contains any copy (backup) at all. -/
def hasCopy (ops : List FileOp) : Bool :=
  ops.any fun op => match op with | FileOp.copy _ _ => true | _ => false

/-- Whether the trace writes `path` with a content different from `c`. -/
def writesChanged (path c : List Char) (ops : List FileOp) : Bool :=
  ops.any fun op =>
    match op with
    | FileOp.write p v => decide (p = path) && !(decide (v = c))
    | _ => false

/-! ## fix_password_reset_js.py

Its `main()` reads index.html, inserts the password-reset JavaScript with
two regex substitutions (falling back to a plain replace), and writes the
file back.  The two fixed patterns are sequences of literals, `\\s*` gaps
and `=+` runs, which a greedy matcher decides exactly because every gap is
followed by a literal starting outside the repeated class. -/

/-- A token of the two fixed regex patterns. -/
inductive PatTok where
  | lit (s : List Char)
  | wsStar
  | eqPlus

/-- Greedy matcher for a token sequence against the head of a string;
returns the matched text and the remainder. -/
def matchToks : List PatTok → List Char → Option (List Char × List Char)
  | [], s => some ([], s)
  | PatTok.lit l :: ts, s =>
    if l.isPrefixOf s then
      (matchToks ts (s.drop l.length)).map fun mr => (l ++ mr.1, mr.2)
    else none
  | PatTok.wsStar :: ts, s =>
    (matchToks ts (s.dropWhile isSpaceChar)).map fun mr =>
      (s.takeWhile isSpaceChar ++ mr.1, mr.2)
  | PatTok.eqPlus :: ts, s =>
    if s.takeWhile (· == '=') = [] then none
    else
      (matchToks ts (s.dropWhile (· == '='))).map fun mr =>
        (s.takeWhile (· == '=') ++ mr.1, mr.2)

/-- Python `re.search`: does the pattern match starting at some position? -/
def reSearch (p : List PatTok) : List Char → Bool
  | [] => (matchToks p []).isSome
  | c :: rest => (matchToks p (c :: rest)).isSome || reSearch p rest

/-- Fuelled worker for `reSub`: replace every non-overlapping match, left
to right, `f` building the replacement from the matched text (the whole
match is group 1 in both patterns used). -/
def reSubAux (p : List PatTok) (f : List Char → List Char) :
    Nat → List Char → List Char
  | 0, s => s
  | _ + 1, [] => []
  | fuel + 1, c :: rest =>
    match matchToks p (c :: rest) with
    | some (m, r) =>
      if m = [] then c :: reSubAux p f fuel rest
      else f m ++ reSubAux p f fuel r
    | none => c :: reSubAux p f fuel rest

/-- Python `re.sub` for the two patterns used (which never match empty
text). -/
def reSub (p : List PatTok) (f : List Char → List Char) (s : List Char) :
    List Char :=
  reSubAux p f s.length s

/-- The first insertion pattern of fix_password_reset_js.py: the literal
scrollTo utility with flexible whitespace. -/
def scrollToPat : List PatTok :=
  [PatTok.lit "function scrollTo(selector) \x7b".data, PatTok.wsStar,
   PatTok.lit "document.querySelector(selector)?.scrollIntoView(\x7b behavior: 'smooth' \x7d);".data,
   PatTok.wsStar, PatTok.lit "\x7d".data]

/-- The second insertion pattern: the INITIALIZATION banner comment. -/
def initSectionPat : List PatTok :=
  [PatTok.lit "// ".data, PatTok.eqPlus, PatTok.wsStar,
   PatTok.lit "// INITIALIZATION".data, PatTok.wsStar,
   PatTok.lit "// ".data, PatTok.eqPlus]

/-- The JS_FUNCTIONS block the script inserts. -/
def jsFunctions : List Char :=
  "\n    // ===========================================\n    // PASSWORD RESET FUNCTIONS\n    // ===========================================\n    \n    let currentResetToken = null;\n    \n    async function handleForgotPassword(event) \x7b\n      event.preventDefault();\n      \n      const email = document.getElementById('forgot-email').value;\n      const submitBtn = document.getElementById('forgot-submit-btn');\n      const originalText = submitBtn.textContent;\n      \n      try \x7b\n        submitBtn.textContent = 'Sending...';\n        submitBtn.disabled = true;\n        \n        const response = await fetch('/api/users/forgot-password', \x7b\n          method: 'POST',\n          headers: \x7b 'Content-Type': 'application/json' \x7d,\n          body: JSON.stringify(\x7b email \x7d),\n        \x7d);\n        \n        const data = await response.json();\n        \n        if (response.ok) \x7b\n          closeModal('forgot-password');\n          showToast('If an account exists, a reset link has been sent to your email.', 'success');\n          document.getElementById('forgot-email').value = '';\n        \x7d else \x7b\n          showToast(data.error || 'Failed to send reset email', 'error');\n        \x7d\n      \x7d catch (error) \x7b\n        console.error('Forgot password error:', error);\n        showToast('Failed to send reset email', 'error');\n      \x7d finally \x7b\n        submitBtn.textContent = originalText;\n        submitBtn.disabled = false;\n      \x7d\n    \x7d\n    \n    async function handleResetPassword(event) \x7b\n      event.preventDefault();\n      \n      const password = document.getElementById('reset-password').value;\n      const confirmPassword = document.getElementById('reset-password-confirm').value;\n      const submitBtn = document.getElementById('reset-submit-btn');\n      const originalText = submitBtn.textContent;\n      \n      if (password !== confirmPassword) \x7b\n        showToast('Passwords do not match', 'error');\n        return;\n      \x7d\n      \n      if (password.length < 8) \x7b\n        showToast('Password must be at least 8 characters', 'error');\n        return;\n      \x7d\n      \n      if (!currentResetToken) \x7b\n        showToast('Invalid reset token', 'error');\n        return;\n      \x7d\n      \n      try \x7b\n        submitBtn.textContent = 'Resetting...';\n        submitBtn.disabled = true;\n        \n        const response = await fetch('/api/users/reset-password', \x7b\n          method: 'POST',\n          headers: \x7b 'Content-Type': 'application/json' \x7d,\n          body: JSON.stringify(\x7b token: currentResetToken, password \x7d),\n        \x7d);\n        \n        const data = await response.json();\n        \n        if (response.ok && data.success) \x7b\n          state.user = data.user;\n          saveToStorage('user', data.user);\n          \n          closeResetModal();\n          updateUI();\n          showDashboard();\n          await loadWatches();\n          showToast('Password reset successful! Welcome back.', 'success');\n        \x7d else \x7b\n          showToast(data.error || 'Failed to reset password', 'error');\n        \x7d\n      \x7d catch (error) \x7b\n        console.error('Reset password error:', error);\n        showToast('Failed to reset password', 'error');\n      \x7d finally \x7b\n        submitBtn.textContent = originalText;\n        submitBtn.disabled = false;\n      \x7d\n    \x7d\n    \n    function closeResetModal() \x7b\n      closeModal('reset-password');\n      currentResetToken = null;\n      const url = new URL(window.location);\n      url.searchParams.delete('reset');\n      window.history.replaceState(\x7b\x7d, '', url);\n      document.getElementById('reset-password').value = '';\n      document.getElementById('reset-password-confirm').value = '';\n    \x7d\n    \n    async function checkForResetToken() \x7b\n      const urlParams = new URLSearchParams(window.location.search);\n      const resetToken = urlParams.get('reset');\n      \n      if (resetToken) \x7b\n        try \x7b\n          const response = await fetch('/api/users/verify-reset-token/' + resetToken);\n          const data = await response.json();\n          \n          if (data.valid) \x7b\n            currentResetToken = resetToken;\n            document.getElementById('reset-email-display').textContent = \n              'Enter a new password for ' + data.email;\n            openModal('reset-password');\n          \x7d else \x7b\n            showToast('This reset link is invalid or has expired.', 'error');\n            const url = new URL(window.location);\n            url.searchParams.delete('reset');\n            window.history.replaceState(\x7b\x7d, '', url);\n          \x7d\n        \x7d catch (error) \x7b\n          console.error('Error verifying reset token:', error);\n          showToast('Failed to verify reset link.', 'error');\n        \x7d\n      \x7d\n    \x7d\n\n".data

/-- The content transformation of fix_password_reset_js.py `main()` once
the already-present check has failed: insert JS_FUNCTIONS after scrollTo,
else before the INITIALIZATION banner, else before
`async function init() \x7b`. -/
def fixPasswordResetTransform (content : List Char) : List Char :=
  if reSearch scrollToPat content then
    reSub scrollToPat (fun m => m ++ jsFunctions) content
  else if reSearch initSectionPat content then
    reSub initSectionPat (fun m => jsFunctions ++ "\n    ".data ++ m) content
  else
    pyReplace content "async function init() \x7b".data
      (jsFunctions ++ "\n    async function init() \x7b".data)

/-- The path constant INDEX_PATH of fix_password_reset_js.py. -/
def indexHtmlPath : List Char :=
  "/var/www/scoutloot/app/public/index.html".data

/-- `main()` of fix_password_reset_js.py as the trace of file operations it
performs when index.html holds `content`: read the file and, unless the
functions are already present, write the transformed content back.  No
other file operation occurs — in particular the script takes no backup. -/
def fixPasswordResetMain (content : List Char) : List FileOp :=
  FileOp.read indexHtmlPath ::
    (if containsSub "async function handleForgotPassword(event)".data content then []
     else [FileOp.write indexHtmlPath (fixPasswordResetTransform content)])

/-! ## public/patch-index-html.py (V24)

Creates a timestamped backup, then applies two patches: the item-type
toggle swap and the CSS insertion before the last closing style tag. -/

/-- The Add Watch form fragment the script looks for (old_form_start). -/
def v24OldFormStart : List Char :=
  "<form class=\"add-watch-form\" onsubmit=\"handleAddWatch(event)\">\n        <div class=\"form-group autocomplete-container\">\n          <label for=\"watch-set\">Set Number or Name</label>".data

/-- Its replacement with the V24 item type toggle (new_form_start). -/
def v24NewFormStart : List Char :=
  "<form class=\"add-watch-form\" onsubmit=\"handleAddWatch(event)\">\n        <!-- V24: Item Type Toggle -->\n        <div class=\"watch-type-toggle\">\n          <button type=\"button\" class=\"toggle-btn active\" data-type=\"set\" onclick=\"switchWatchType('set')\">\n            🧱 Set\n          </button>\n          <button type=\"button\" class=\"toggle-btn\" data-type=\"minifig\" onclick=\"switchWatchType('minifig')\">\n            🧍 Minifigure\n          </button>\n        </div>\n        \n        <div class=\"form-group autocomplete-container\">\n          <label for=\"watch-set\">Set Number or Name</label>".data

/-- The V24 CSS block (css_additions). -/
def v24CssAdditions : List Char :=
  "\n/* V24: Minifig Support Styles */\n.watch-type-toggle \x7b\n  display: flex;\n  gap: 0;\n  margin-bottom: 16px;\n  border-radius: 8px;\n  overflow: hidden;\n  border: 1px solid rgba(255, 255, 255, 0.1);\n\x7d\n\n.watch-type-toggle .toggle-btn \x7b\n  flex: 1;\n  padding: 12px 16px;\n  border: none;\n  background: rgba(255, 255, 255, 0.05);\n  color: var(--text-muted);\n  cursor: pointer;\n  font-size: 0.95rem;\n  font-weight: 500;\n  transition: all 0.2s ease;\n  display: flex;\n  align-items: center;\n  justify-content: center;\n  gap: 8px;\n\x7d\n\n.watch-type-toggle .toggle-btn:hover \x7b\n  background: rgba(255, 255, 255, 0.1);\n  color: var(--text);\n\x7d\n\n.watch-type-toggle .toggle-btn.active \x7b\n  background: var(--accent);\n  color: white;\n\x7d\n\n.watch-type-toggle .toggle-btn:first-child \x7b\n  border-radius: 7px 0 0 7px;\n\x7d\n\n.watch-type-toggle .toggle-btn:last-child \x7b\n  border-radius: 0 7px 7px 0;\n\x7d\n\n.watch-type-badge \x7b\n  display: inline-block;\n  font-size: 0.65rem;\n  padding: 2px 6px;\n  border-radius: 4px;\n  margin-left: 8px;\n  vertical-align: middle;\n  text-transform: uppercase;\n  letter-spacing: 0.5px;\n  font-weight: 600;\n\x7d\n\n.watch-type-badge.minifig \x7b\n  background: linear-gradient(135deg, #9333ea, #7c3aed);\n  color: white;\n\x7d\n\n".data

/-- Splits `s` at the start of the last occurrence of `needle`: Python
`s.rfind(needle)` followed by slicing; `none` when absent. -/
def splitAtLast (needle : List Char) : List Char → Option (List Char × List Char)
  | [] => if needle.isPrefixOf [] then some ([], []) else none
  | c :: rest =>
    match splitAtLast needle rest with
    | some ab => some (c :: ab.1, ab.2)
    | none =>
      if needle.isPrefixOf (c :: rest) then some ([], c :: rest) else none

/-- The file transformation of patch-index-html.py: the guarded toggle
replacement, then the CSS inserted before the last closing style tag when
one exists. -/
def patch_index_html_transform (content : List Char) : List Char :=
  let c1 := if containsSub v24OldFormStart content then
              pyReplace content v24OldFormStart v24NewFormStart
            else content
  match splitAtLast "</style>".data c1 with
  | some ab => ab.1 ++ v24CssAdditions ++ ab.2
  | none => c1

/-- The FILE constant of patch-index-html.py (run from public/). -/
def indexHtmlFile : List Char := "index.html".data

/-- `main()` of public/patch-index-html.py as a trace of file operations,
with `ts` the `datetime.now().strftime` timestamp of the run: copy
index.html to the timestamped backup, read it, write the transformed
content back. -/
def patchIndexHtmlMain (ts : List Char) (content : List Char) : List FileOp :=
  [FileOp.copy indexHtmlFile (indexHtmlFile ++ ".bak.".data ++ ts),
   FileOp.read indexHtmlFile,
   FileOp.write indexHtmlFile (patch_index_html_transform content)]

/-! ## Helper lemmas -/

/-- A substring of the right part is a substring of the concatenation. -/
theorem containsSub_append_of_right (needle a b : List Char)
    (h : containsSub needle b = true) : containsSub needle (a ++ b) = true := by
  induction a with
  | nil => simpa using h
  | cons c a ih => simp [containsSub, ih]

/-- Reflexivity of the boolean prefix test on character lists. -/
theorem isPrefixOf_self (l : List Char) : l.isPrefixOf l = true := by
  induction l with
  | nil => rfl
  | cons c r ih => simp [List.isPrefixOf, ih]

/-- Every string contains itself. -/
theorem containsSub_self (n : List Char) : containsSub n n = true := by
  cases n with
  | nil => rfl
  | cons c r => simp [containsSub, isPrefixOf_self]

/-- The WHERE clause of the bulk UPDATE is insensitive to the SET clause:
setting condition and updated_at changes neither user_id nor status. -/
theorem ownedActive_set (uid : Int) (c : List Char) (now : Nat) (w : Watch) :
    ownedActive uid { w with condition := c, updated_at := now } =
      ownedActive uid w := rfl

/-- Stripping a column leaves no column of that name. -/
theorem hasField_removeField (k : List Char) (cols : List (List Char × List Char)) :
    hasField k (removeField k cols) = false := by
  induction cols with
  | nil => rfl
  | cons p ps ih =>
    by_cases h : p.1 = k
    · simp [hasField, removeField, h]
    · simp [hasField, removeField, h]

/-! ## C1 — the bulk-condition operation -/

/-- C1: for a numeric user id and a condition in new/used/any, the
bulk-condition route answers 200 with the number of active watches owned by
the user as the row count (0 being a success, not an error), sets the
condition on exactly the active watches owned by that user, and leaves
every other watch unchanged. -/
theorem bulk_condition_route_spec (userIdStr : List Char) (uid : Int) (c : List Char)
    (now : Nat) (db : List Watch)
    (hparse : parseIntJS userIdStr = some uid) (hc : c ∈ allowedConditions) :
    (bulkConditionRoute userIdStr (some c) now db).1.status = 200 ∧
    (bulkConditionRoute userIdStr (some c) now db).1.updated =
      some (db.countP (ownedActive uid)) ∧
    (bulkConditionRoute userIdStr (some c) now db).2.length = db.length ∧
    (∀ i : Nat, ∀ w : Watch, db[i]? = some w →
      (ownedActive uid w = true →
        (bulkConditionRoute userIdStr (some c) now db).2[i]? =
          some { w with condition := c, updated_at := now }) ∧
      (ownedActive uid w = false →
        (bulkConditionRoute userIdStr (some c) now db).2[i]? = some w)) ∧
    ((∀ w ∈ db, ownedActive uid w = false) →
      (bulkConditionRoute userIdStr (some c) now db).1.updated = some 0) := by
  have hroute : bulkConditionRoute userIdStr (some c) now db =
      (⟨200, some (db.countP (ownedActive uid)), some c⟩,
       db.map fun w =>
         if ownedActive uid w then { w with condition := c, updated_at := now } else w) := by
    unfold bulkConditionRoute
    rw [hparse]
    simp [hc, bulkSetCondition]
  rw [hroute]
  refine ⟨rfl, rfl, List.length_map _ _, ?_, ?_⟩
  · intro i w hw
    constructor
    · intro hmatch
      rw [List.getElem?_map, hw]
      simp [hmatch]
    · intro hmiss
      rw [List.getElem?_map, hw]
      simp [hmiss]
  · intro hnone
    have : db.countP (ownedActive uid) = 0 := by
      rw [List.countP_eq_zero]
      intro w hw
      simp [hnone w hw]
    simp [this]

/-- Witness for C1 at a concrete table: user 7 with one active watch. -/
theorem bulk_condition_route_spec_witness :
    (bulkConditionRoute "7".data (some "new".data) 5
      [⟨1, 7, "active".data, "used".data, 0⟩,
       ⟨2, 8, "active".data, "used".data, 0⟩]).1.status = 200 :=
  (bulk_condition_route_spec "7".data 7 "new".data 5
    [⟨1, 7, "active".data, "used".data, 0⟩,
     ⟨2, 8, "active".data, "used".data, 0⟩] (by decide) (by decide)).1

/-! ## C2 — the bulk-condition operation applied twice -/

/-- C2 counterexample: a user with one active watch.  The first call fully
succeeds (200, every condition set), yet the second call reports 1, the
number of active watches matched by the UPDATE, not 0. -/
theorem bulk_condition_second_call_counterexample :
    (bulkConditionRoute "1".data (some "new".data) 0
      [⟨1, 1, "active".data, "used".data, 0⟩]).1.status = 200 ∧
    ((bulkConditionRoute "1".data (some "new".data) 0
      [⟨1, 1, "active".data, "used".data, 0⟩]).2.map (fun w => w.condition)) =
      ["new".data] ∧
    (bulkConditionRoute "1".data (some "new".data) 0
      ((bulkConditionRoute "1".data (some "new".data) 0
        [⟨1, 1, "active".data, "used".data, 0⟩]).2)).1.updated = some 1 ∧
    (bulkConditionRoute "1".data (some "new".data) 0
      ((bulkConditionRoute "1".data (some "new".data) 0
        [⟨1, 1, "active".data, "used".data, 0⟩]).2)).1.updated ≠ some 0 := by
  decide

/-- C2 (amended): bulkSetCondition applied twice is idempotent on the
stored conditions, and the second call reports the same row count as the
first — the number of active watches owned by the user, which the SQL
counts whether or not their condition already equals c — not 0. -/
theorem bulkSetCondition_twice (uid : Int) (c : List Char) (now now' : Nat)
    (db : List Watch) :
    (bulkSetCondition uid c now' (bulkSetCondition uid c now db).1).2 =
      (bulkSetCondition uid c now db).2 ∧
    (bulkSetCondition uid c now' (bulkSetCondition uid c now db).1).1.map
        (fun w => w.condition) =
      (bulkSetCondition uid c now db).1.map (fun w => w.condition) := by
  constructor
  · simp only [bulkSetCondition, List.countP_map]
    apply List.countP_congr
    intro w _
    by_cases h : ownedActive uid w = true
    · simp [Function.comp, h, ownedActive_set]
    · simp only [Bool.not_eq_true] at h
      simp [Function.comp, h, ownedActive_set]
  · simp only [bulkSetCondition, List.map_map]
    apply List.map_congr_left
    intro w _
    by_cases h : ownedActive uid w = true
    · simp [Function.comp, h, ownedActive_set]
    · simp only [Bool.not_eq_true] at h
      simp [Function.comp, h, ownedActive_set]

/-! ## C7 — validation rejects before any mutation -/

/-- C7: a malformed bulk-condition request — a user id parseInt cannot
read, a missing condition, or a condition outside new/used/any — is
answered 400 and leaves the watches table exactly as it was. -/
theorem bulk_condition_validation (userIdStr : List Char)
    (condition : Option (List Char)) (now : Nat) (db : List Watch)
    (h : parseIntJS userIdStr = none ∨
      ∀ c, condition = some c → c ∉ allowedConditions) :
    (bulkConditionRoute userIdStr condition now db).1.status = 400 ∧
    (bulkConditionRoute userIdStr condition now db).2 = db := by
  rcases h with h | h
  · simp [bulkConditionRoute, h]
  · unfold bulkConditionRoute
    cases hp : parseIntJS userIdStr with
    | none => simp
    | some uid =>
      cases condition with
      | none => simp
      | some c =>
        have := h c rfl
        simp [this]

/-- Witness for C7: a non-numeric user id with a valid table. -/
theorem bulk_condition_validation_witness :
    (bulkConditionRoute "abc".data (some "new".data) 0
      [⟨1, 1, "active".data, "used".data, 0⟩]).1.status = 400 ∧
    (bulkConditionRoute "abc".data (some "new".data) 0
      [⟨1, 1, "active".data, "used".data, 0⟩]).2 =
      [⟨1, 1, "active".data, "used".data, 0⟩] :=
  bulk_condition_validation "abc".data (some "new".data) 0
    [⟨1, 1, "active".data, "used".data, 0⟩] (Or.inl (by decide))

/-! ## C3 — the forgot-password flow reveals nothing -/

/-- C3: for any acknowledged (ok) server response the forgot-password
handler produces one fixed sequence of observable effects — close the
modal, show the generic success toast, clear the field — independent of
the response payload, so the requester observes the same outcome whether
or not an account with the submitted email exists. -/
theorem forgot_password_no_account_leak (email originalText : List Char)
    (r1 r2 : FetchResponse) (h1 : r1.ok = true) (h2 : r2.ok = true) :
    handleForgotPassword email originalText (some r1) =
      handleForgotPassword email originalText (some r2) ∧
    handleForgotPassword email originalText (some r1) =
      [.setButtonText "forgot-submit-btn".data "Sending...".data,
       .setButtonDisabled "forgot-submit-btn".data true,
       .fetchPost "/api/users/forgot-password".data email,
       .closeModal "forgot-password".data,
       .showToast "If an account exists, a reset link has been sent to your email.".data
         "success".data,
       .setFieldValue "forgot-email".data [],
       .setButtonText "forgot-submit-btn".data originalText,
       .setButtonDisabled "forgot-submit-btn".data false] := by
  constructor <;> simp [handleForgotPassword, h1, h2]

/-- Witness for C3: two ok responses with different payloads — one for an
existing account, one with a body only a non-existent account would carry —
yield identical observable effects. -/
theorem forgot_password_no_account_leak_witness :
    handleForgotPassword "user@example.com".data "Send Reset Link".data
        (some ⟨true, none⟩) =
      handleForgotPassword "user@example.com".data "Send Reset Link".data
        (some ⟨true, some "no such account".data⟩) :=
  (forgot_password_no_account_leak "user@example.com".data "Send Reset Link".data
    ⟨true, none⟩ ⟨true, some "no such account".data⟩ rfl rfl).1

/-! ## C4 — the currency resolver -/

/-- C4: currency resolution is total — US maps to the dollar symbol, CA to
the Canadian dollar symbol, GB to the pound — and every other stored state
(no stored user, an unparsable record, a missing field, any other country
code) falls through to the Euro default; the result is always one of the
four symbols. -/
theorem getCurrencySymbol_total_mapping :
    getCurrencySymbol (.user (some "US".data)) = "$".data ∧
    getCurrencySymbol (.user (some "CA".data)) = "C$".data ∧
    getCurrencySymbol (.user (some "GB".data)) = "£".data ∧
    getCurrencySymbol .absent = "€".data ∧
    getCurrencySymbol .unparsable = "€".data ∧
    getCurrencySymbol (.user none) = "€".data ∧
    (∀ country : List Char,
      jsToUpperCase country ≠ "US".data → jsToUpperCase country ≠ "CA".data →
      jsToUpperCase country ≠ "GB".data →
      getCurrencySymbol (.user (some country)) = "€".data) ∧
    (∀ su : StoredUser,
      getCurrencySymbol su = "$".data ∨ getCurrencySymbol su = "C$".data ∨
      getCurrencySymbol su = "£".data ∨ getCurrencySymbol su = "€".data) := by
  refine ⟨by decide, by decide, by decide, rfl, rfl, by decide, ?_, ?_⟩
  · intro country h1 h2 h3
    simp only [getCurrencySymbol, Option.getD]
    rw [if_neg h1, if_neg h2, if_neg h3]
  · intro su
    cases su with
    | absent => simp [getCurrencySymbol]
    | unparsable => simp [getCurrencySymbol]
    | user ship =>
      simp only [getCurrencySymbol]
      split_ifs <;> simp

/-- Witness for C4: an unlisted country code resolves to the Euro. -/
theorem getCurrencySymbol_total_mapping_witness :
    getCurrencySymbol (.user (some "fr".data)) = "€".data :=
  getCurrencySymbol_total_mapping.2.2.2.2.2.2.1 "fr".data
    (by decide) (by decide) (by decide)

/-! ## C8 — notification preference defaults -/

/-- C8: a user record that lacks the notification preference fields loads
into the settings view with the weekly-digest checkbox checked and the
still-available checkbox unchecked. -/
theorem settings_defaults (u : UserPrefFields)
    (hw : u.weekly_digest_enabled = none)
    (hs : u.still_available_reminders = none) :
    settingsCheckboxes u = (true, false) := by
  simp [settingsCheckboxes, hw, hs]

/-- Witness for C8: the record with both fields absent. -/
theorem settings_defaults_witness :
    settingsCheckboxes ⟨none, none⟩ = (true, false) :=
  settings_defaults ⟨none, none⟩ rfl rfl

/-! ## C9 — the settings response never contains password_hash -/

/-- C9: whenever the PATCH /users/:id settings route answers 200, the user
object it returns has no password_hash column: the response is the updated
row with that column removed. -/
theorem patch_user_route_no_password_hash (idStr : List Char) (b : SettingsBody)
    (now : List Char) (db : List UserRow)
    (hok : (patchUserRoute idStr b now db).1.status = 200) :
    ∀ cols, (patchUserRoute idStr b now db).1.user = some cols →
      hasField "password_hash".data cols = false := by
  intro cols hcols
  unfold patchUserRoute at hok hcols
  cases hp : parseIntJS idStr with
  | none =>
    rw [hp] at hok
    simp at hok
  | some uid =>
    rw [hp] at hok hcols
    by_cases hnf : noFieldsProvided b = true
    · simp [hnf] at hok
    · simp only [Bool.not_eq_true] at hnf
      rw [hnf] at hok hcols
      simp only [Bool.false_eq_true, if_false] at hok hcols
      cases hfil : db.filter (userRowMatches uid) with
      | nil =>
        rw [hfil] at hok
        simp at hok
      | cons r rs =>
        rw [hfil] at hcols
        simp only [Option.some.injEq] at hcols
        rw [← hcols]
        exact hasField_removeField _ _

/-- Witness for C9 at a concrete request: a stored row that does carry a
password_hash column yields a 200 response without it. -/
theorem patch_user_route_no_password_hash_witness :
    hasField "password_hash".data
      (removeField "password_hash".data
        (applyUpdates ⟨none, none, some "true".data, none⟩ "T".data
          [("id".data, "1".data), ("password_hash".data, "secret".data)])) = false :=
  patch_user_route_no_password_hash "1".data ⟨none, none, some "true".data, none⟩
    "T".data [⟨1, false, [("id".data, "1".data), ("password_hash".data, "secret".data)]⟩]
    (by decide) _ rfl

/-! ## C5 — idempotency of the patch transformations -/

/-- C5 counterexample: `patch_set_html` of v30_frontend_patch.py has no
already-applied check, and the block it splices in contains its own search
string `let priceChart = null;`, so a second run inserts the block again:
on a file holding exactly that line, running the transformation twice does
not equal running it once. -/
theorem patch_set_html_not_idempotent :
    patch_set_html (patch_set_html "let priceChart = null;".data) ≠
      patch_set_html "let priceChart = null;".data := by
  decide

/-- C5 (amended): the scripts that guard with an explicit already-applied
check are idempotent — v29_patch.py's patch_app_js returns unchanged
content whenever `handleBulkConditionChange` is already present, and the
block it appends contains that marker, so a second run always changes
nothing; but not every patch script has such a check (see the
counterexample for v30's patch_set_html). -/
theorem patch_app_js_idempotent (content : List Char) :
    patch_app_js (patch_app_js content) = patch_app_js content := by
  by_cases h : containsSub "handleBulkConditionChange".data content = true
  · simp [patch_app_js, h]
  · simp only [Bool.not_eq_true] at h
    have hnew : containsSub "handleBulkConditionChange".data v29NewJs = true := by
      decide
    have happ : containsSub "handleBulkConditionChange".data (content ++ v29NewJs) = true :=
      containsSub_append_of_right _ _ _ hnew
    simp [patch_app_js, h, happ]

/-! ## C6 — backups before writes -/

/-- C6 counterexample: fix_password_reset_js.py rewrites index.html with no
backup of any kind.  On a file holding `async function init() ...` the run
trace writes a modified index.html and contains no copy operation at all,
so no pre-modification content is preserved. -/
theorem fix_password_reset_writes_without_backup :
    hasCopy (fixPasswordResetMain "async function init() \x7b".data) = false ∧
    writesChanged indexHtmlPath "async function init() \x7b".data
      (fixPasswordResetMain "async function init() \x7b".data) = true := by
  decide

/-- C6 (amended): the V24 scripts do take a timestamped backup — every
write public/patch-index-html.py performs is preceded by a copy of the
written file to a destination carrying the run's timestamp — but not every
patch script does: fix_password_reset_js.py writes with no backup at all,
and several others use fixed, untimestamped suffixes. -/
theorem patch_index_html_backup_before_write (ts content : List Char) :
    backupBeforeWrite [] (patchIndexHtmlMain ts content) = true ∧
    copiesTimestamped ts (patchIndexHtmlMain ts content) = true := by
  constructor
  · simp [patchIndexHtmlMain, backupBeforeWrite]
  · simp only [patchIndexHtmlMain, copiesTimestamped, List.all_cons, List.all_nil,
      Bool.and_true]
    have : containsSub ts (".bak.".data ++ ts) = true :=
      containsSub_append_of_right _ _ _ (containsSub_self ts)
    simpa using containsSub_append_of_right ts indexHtmlFile (".bak.".data ++ ts) this

/-! ## C10 — atomicity of the v30 frontend patch -/

/-- C10: the v30 frontend patch is atomic across its two target files:
when post-patch verification reports any error, main restores both
set.html and minifig.html to their pre-patch contents and exits 1; when it
reports none, both files carry the verified patched contents and main
exits 0; in every case the outcome is both-patched or both-original. -/
theorem v30_main_atomic (setContent minifigContent : List Char) :
    (verify_patches (patch_set_html setContent) (patch_minifig_html minifigContent) = [] →
      v30Main setContent minifigContent =
        ((patch_set_html setContent, patch_minifig_html minifigContent), 0)) ∧
    (verify_patches (patch_set_html setContent) (patch_minifig_html minifigContent) ≠ [] →
      v30Main setContent minifigContent = ((setContent, minifigContent), 1)) ∧
    ((v30Main setContent minifigContent).1 =
        (patch_set_html setContent, patch_minifig_html minifigContent) ∨
      (v30Main setContent minifigContent).1 = (setContent, minifigContent)) := by
  by_cases h : verify_patches (patch_set_html setContent)
      (patch_minifig_html minifigContent) = []
  · refine ⟨fun _ => ?_, fun hne => absurd h hne, Or.inl ?_⟩ <;> simp [v30Main, h]
  · refine ⟨fun he => absurd he h, fun _ => ?_, Or.inr ?_⟩ <;> simp [v30Main, h]

/-- Witness for C10: on empty target files the patches do not apply,
verification fails, and main rolls both files back and exits 1. -/
theorem v30_main_atomic_witness :
    v30Main [] [] = (([], []), 1) :=
  (v30_main_atomic [] []).2.1 (by decide)

end ScoutLoot
